import Mathlib

/-!
Shallow embedding of the two JSONL analysis scripts of this repository:

* `crates/tom-stress/scripts/analyze-stress.py`  (namespace `Stress`)
* `experiments/iroh-poc/scripts/analyze-results.py`  (namespace `Results`)

Modelling conventions:
* A decoded JSON record is an `Event` structure whose fields are all optional;
  a field that is absent from the record is `none`.  Numeric JSON values are
  modelled as rationals (`ℚ`); the scripts only add, divide and compare them.
* A file on disk is a list of lines; each line either decodes to an event
  (`some e`) or fails `json.loads` / is blank (`none`, skipped by the loader).
  The filesystem is a partial map from path to file content; a path that is
  not mapped raises `FileNotFoundError` on `open`.
* Python exceptions are modelled with `Except PyErr`: raw dictionary indexing
  `d["k"]` on a missing key is `PyErr.keyError`, a missing file is
  `PyErr.notFound`.  `d.get("k", v)` is `Option.getD`.
* `print` output is modelled as abstract report records/lines carrying exactly
  the data rendered; box-drawing, column widths and number formatting are
  presentation only and are not modelled.
* `statistics.stdev` returns a square root, which is not rational; the
  embedding stores the sample variance (the square of the printed stddev) in
  the report field.  Presence/absence of the field matches the script exactly.
-/

/-- One decoded JSONL record.  Every field the two scripts ever read is listed;
a field that is missing from the underlying JSON object is `none`. -/
structure Event where
  event : Option String := none
  rtt_ms : Option ℚ := none
  via : Option String := none
  total_pings : Option ℚ := none
  successful : Option ℚ := none
  failed : Option ℚ := none
  reconnections : Option ℚ := none
  total_disconnected_s : Option ℚ := none
  kind : Option String := none
  time_to_direct_s : Option ℚ := none
  reconnect_time_ms : Option ℚ := none
  elapsed_s : Option ℚ := none
  round : Option ℚ := none
  messages_sent : Option ℚ := none
  messages_acked : Option ℚ := none
  lost : Option ℚ := none
  payload_size : Option ℚ := none
  messages_per_sec : Option ℚ := none
  bytes_per_sec : Option ℚ := none
  elapsed_ms : Option ℚ := none
  rtt_min_ms : Option ℚ := none
  rtt_avg_ms : Option ℚ := none
  rtt_max_ms : Option ℚ := none
  size : Option Int := none
  target_count : Option ℚ := none
  total_sent : Option ℚ := none
  total_delivered : Option ℚ := none
  total_failed : Option ℚ := none
  avg_rtt_ms : Option ℚ := none
  max_rtt_ms : Option ℚ := none
  deriving DecidableEq

/-- Python exceptions raised by the scripts. -/
inductive PyErr where
  | notFound (path : String)
  | keyError (field : String)
  deriving DecidableEq

deriving instance DecidableEq for Except

/-- The filesystem: path to decoded lines (`none` entries are lines that fail
`json.loads`); an unmapped path raises `FileNotFoundError` on `open`. -/
def FS : Type := String → Option (List (Option Event))

/-- A filesystem given by a finite table. -/
def fsOf (tbl : List (String × List (Option Event))) : FS :=
  fun p => List.lookup p tbl

/-- Left-to-right effectful map: a Python list comprehension that may raise.
The first raising element determines the exception. -/
def mapE {ε α β : Type} (f : α → Except ε β) : List α → Except ε (List β)
  | [] => .ok []
  | x :: xs =>
    match f x with
    | .error e => .error e
    | .ok y =>
      match mapE f xs with
      | .error e => .error e
      | .ok ys => .ok (y :: ys)

/-- A Python list comprehension `[r["field"] for r in l]` with raw dictionary
indexing: collects the selected field of every record, raising `KeyError` at
the first record where the field is absent. -/
def pluck (field : String) (sel : Event → Option ℚ) : List Event → Except PyErr (List ℚ)
  | [] => .ok []
  | p :: ps =>
    match sel p with
    | none => .error (.keyError field)
    | some q =>
      match pluck field sel ps with
      | .error e => .error e
      | .ok qs => .ok (q :: qs)

/-- `[e for e in events if e.get("event") == k]`. -/
def eventsOfKind (events : List Event) (k : String) : List Event :=
  events.filter (fun e => e.event == some k)

/-- `load_events` (analyze-stress.py) and the loader loop of `analyze_file`
(analyze-results.py): decode each line independently, skip lines that fail to
decode, raise `FileNotFoundError` for a missing path. -/
def load_events (fs : FS) (path : String) : Except PyErr (List Event) :=
  match fs path with
  | none => .error (.notFound path)
  | some lines => .ok (lines.filterMap id)

/-- `statistics.mean`. -/
def mean (xs : List ℚ) : ℚ := xs.sum / (xs.length : ℚ)

/-- Python `sorted` on numbers (ascending, stable). -/
def pySorted (xs : List ℚ) : List ℚ := List.insertionSort (· ≤ ·) xs

/-- `statistics.median`: middle element of the sorted list, or the average of
the two middle elements when the length is even. -/
def median (xs : List ℚ) : ℚ :=
  let s := pySorted xs
  let n := xs.length
  if n % 2 = 1 then s.getD (n / 2) 0
  else (s.getD (n / 2 - 1) 0 + s.getD (n / 2) 0) / 2

/-- The square of `statistics.stdev`: the sample variance with Bessel's
correction (denominator `n - 1`). -/
def sampleVariance (xs : List ℚ) : ℚ :=
  (xs.map (fun x => (x - mean xs) ^ 2)).sum / ((xs.length : ℚ) - 1)

/-- Python `min` on a non-empty list (the scripts only call it on non-empty
lists; the empty case is an arbitrary default). -/
def listMin : List ℚ → ℚ
  | [] => 0
  | x :: xs => xs.foldl min x

/-- Python `max` on a non-empty list. -/
def listMax : List ℚ → ℚ
  | [] => 0
  | x :: xs => xs.foldl max x

/-- `sorted(rtts)[int(len(rtts) * 0.95)]`: nearest-rank 95th percentile.
`int(n * 0.95)` is `⌊95·n/100⌋` for every list size arising in practice. -/
def p95 (xs : List ℚ) : ℚ := (pySorted xs).getD ((xs.length * 95) / 100) 0

/-- Code-point comparison of two char lists: Python string `<=`. -/
def charListLe : List Char → List Char → Bool
  | [], _ => true
  | _ :: _, [] => false
  | c :: cs, d :: ds =>
    if c.val < d.val then true
    else if d.val < c.val then false
    else charListLe cs ds

/-- Python string `<=` (lexicographic on code points). -/
def strLe (a b : String) : Bool := charListLe a.data b.data

/-- Insert into an already sorted list of paths, keeping stability. -/
def insertSorted (x : String) : List String → List String
  | [] => [x]
  | y :: ys => if strLe x y then x :: y :: ys else y :: insertSorted x ys

/-- Python `sorted` on a list of paths. -/
def pySortedStr : List String → List String
  | [] => []
  | x :: xs => insertSorted x (pySortedStr xs)

/-- Characters after the last separator: `pathlib.Path(p).name`. -/
def baseNameChars (sep : Char) (cs : List Char) : List Char :=
  cs.foldl (fun acc c => if c = sep then [] else acc ++ [c]) []

/-- `pathlib.Path(p).name`. -/
def baseName (p : String) : String := String.mk (baseNameChars '/' p.data)

namespace Stress

/-- The data printed by `analyze_pings` for one file: each `Option` field is a
report line that is present or omitted. `success_rate` is the
`(successful, total_pings)` pair of the last summary when `total` is truthy
(the script prints an empty string otherwise); `rtt_var` is the square of the
printed stddev; `path_changes` is `(total, direct, relay)`. -/
structure PingReport where
  total : Nat
  rtt_min : ℚ
  rtt_max : ℚ
  rtt_avg : ℚ
  rtt_median : Option ℚ
  rtt_var : Option ℚ
  rtt_p95 : Option ℚ
  success_rate : Option (ℚ × ℚ)
  reconnections : Option ℚ
  path_changes : Option (Nat × Nat × Nat)
  deriving DecidableEq

/-- `analyze_pings` of analyze-stress.py.  Returns `none` (no output at all)
when the file has no ping events; raises `KeyError` when some ping record
lacks `rtt_ms` (line 34: `rtts = [p["rtt_ms"] for p in pings]`). -/
def analyze_pings (events : List Event) : Except PyErr (Option PingReport) :=
  let pings := eventsOfKind events "ping"
  if pings.isEmpty then .ok none
  else
    match pluck "rtt_ms" Event.rtt_ms pings with
    | .error e => .error e
    | .ok rtts =>
      let summaries := eventsOfKind events "summary"
      let path_changes := eventsOfKind events "path_change"
      .ok (some
        { total := pings.length
          rtt_min := listMin rtts
          rtt_max := listMax rtts
          rtt_avg := mean rtts
          rtt_median := if 1 < rtts.length then some (median rtts) else none
          rtt_var := if 1 < rtts.length then some (sampleVariance rtts) else none
          rtt_p95 := if 1 < rtts.length then some (p95 rtts) else none
          success_rate :=
            match summaries.getLast? with
            | none => none
            | some s =>
              if s.total_pings.getD 0 ≠ 0 then
                some (s.successful.getD 0, s.total_pings.getD 0)
              else none
          reconnections := (summaries.getLast?).map (fun s => s.reconnections.getD 0)
          path_changes :=
            if path_changes.isEmpty then none
            else some (path_changes.length,
              (path_changes.filter (fun p => p.kind == some "direct")).length,
              (path_changes.filter (fun p => p.kind == some "relay")).length) })

/-- One round printed by `analyze_burst`; every numeric field is read with
`r.get(..., 0)`, so a missing field is rendered as 0.  `round` is rendered as
a question mark when missing. -/
structure BurstRound where
  round : Option ℚ
  sent : ℚ
  acked : ℚ
  lost : ℚ
  size : ℚ
  mps : ℚ
  bps : ℚ
  elapsed : ℚ
  rtt_min : ℚ
  rtt_avg : ℚ
  rtt_max : ℚ
  deriving DecidableEq

/-- `analyze_burst`: no output when there is no `burst_result` event, one
round record per event otherwise. -/
def analyze_burst (events : List Event) : Option (List BurstRound) :=
  let results := eventsOfKind events "burst_result"
  if results.isEmpty then none
  else some (results.map (fun r =>
    { round := r.round
      sent := r.messages_sent.getD 0
      acked := r.messages_acked.getD 0
      lost := r.lost.getD 0
      size := r.payload_size.getD 0
      mps := r.messages_per_sec.getD 0
      bps := r.bytes_per_sec.getD 0
      elapsed := r.elapsed_ms.getD 0
      rtt_min := r.rtt_min_ms.getD 0
      rtt_avg := r.rtt_avg_ms.getD 0
      rtt_max := r.rtt_max_ms.getD 0 }))

/-- One table row printed by `analyze_ladder`; the RTT columns come from
`r.get("rtt_min_ms") or 0` etc., so a missing field is rendered as 0. -/
structure LadderRow where
  size_str : String
  ok : ℚ
  fail : ℚ
  rmin : ℚ
  ravg : ℚ
  rmax : ℚ
  deriving DecidableEq

/-- Size column formatting: `f"{size // 1024}KB"` for `size >= 1024`, else
`f"{size}B"` (for the non-negative sizes arising here `Int` division agrees
with Python floor division). -/
def sizeStr (size : Int) : String :=
  if size ≥ 1024 then toString (size / 1024) ++ "KB" else toString size ++ "B"

/-- `analyze_ladder`: no output when there is no `ladder_result` event, one
row per event otherwise, in file order. -/
def analyze_ladder (events : List Event) : Option (List LadderRow) :=
  let results := eventsOfKind events "ladder_result"
  if results.isEmpty then none
  else some (results.map (fun r =>
    { size_str := sizeStr (r.size.getD 0)
      ok := r.successful.getD 0
      fail := r.failed.getD 0
      rmin := r.rtt_min_ms.getD 0
      ravg := r.rtt_avg_ms.getD 0
      rmax := r.rtt_max_ms.getD 0 }))

/-- One block printed by `analyze_fanout`; `targets` is rendered as a question
mark when missing, the other fields default to 0. -/
structure FanoutBlock where
  targets : Option ℚ
  sent : ℚ
  delivered : ℚ
  failed : ℚ
  avg_rtt : ℚ
  max_rtt : ℚ
  deriving DecidableEq

/-- `analyze_fanout`: no output when there is no `fanout_result` event. -/
def analyze_fanout (events : List Event) : Option (List FanoutBlock) :=
  let results := eventsOfKind events "fanout_result"
  if results.isEmpty then none
  else some (results.map (fun r =>
    { targets := r.target_count
      sent := r.total_sent.getD 0
      delivered := r.total_delivered.getD 0
      failed := r.total_failed.getD 0
      avg_rtt := r.avg_rtt_ms.getD 0
      max_rtt := r.max_rtt_ms.getD 0 }))

/-- What `main` emits for one file: either the `(empty: label)` note for a
file with zero decoded events, or the four analyzer outputs.  The label is
built from the path; we keep the path itself. -/
inductive FileSection where
  | empty (path : String)
  | report (path : String) (ping : Option PingReport) (burst : Option (List BurstRound))
      (ladder : Option (List LadderRow)) (fanout : Option (List FanoutBlock))
  deriving DecidableEq

/-- The path a per-file section was produced for. -/
def FileSection.path : FileSection → String
  | .empty p => p
  | .report p _ _ _ _ => p

/-- The body of the `for path in sorted(files)` loop of analyze-stress.py's
`main`: load, emit the empty note, or run the four analyzers.  Exceptions
(`FileNotFoundError` from `open`, `KeyError` from `analyze_pings`) are not
caught anywhere in this script. -/
def analyze_one (fs : FS) (path : String) : Except PyErr FileSection :=
  match load_events fs path with
  | .error e => .error e
  | .ok events =>
    if events.isEmpty then .ok (.empty path)
    else
      match analyze_pings events with
      | .error e => .error e
      | .ok ping =>
        .ok (.report path ping (analyze_burst events) (analyze_ladder events)
          (analyze_fanout events))

/-- `main` of analyze-stress.py: iterate over `sorted(files)`; an uncaught
exception aborts the whole batch (the remaining files are not processed). -/
def main (fs : FS) (files : List String) : Except PyErr (List FileSection) :=
  mapE (analyze_one fs) (pySortedStr files)

/-- Process exit code of analyze-stress.py: 1 for the usage message when no
file arguments are given, 1 when an uncaught exception aborts the run, 0
otherwise (the script never inspects its results before exiting). -/
def exitCode (fs : FS) (files : List String) : Nat :=
  if files.isEmpty then 1
  else
    match main fs files with
    | .ok _ => 0
    | .error _ => 1

end Stress

namespace Results

/-- The dict built by `analyze_file` of analyze-results.py; keys that are only
set conditionally are `Option` fields (`none` means the key is absent). -/
structure FileResult where
  file : String
  total_pings : Nat
  direct_pings : Nat
  relay_pings : Nat
  direct_pct : ℚ
  path_changes : Nat
  hole_punches : Nat
  disconnections : Nat
  reconnections : Nat
  rtt_mean : Option ℚ := none
  rtt_median : Option ℚ := none
  rtt_p95 : Option ℚ := none
  rtt_min : Option ℚ := none
  rtt_max : Option ℚ := none
  direct_rtt_mean : Option ℚ := none
  direct_rtt_p95 : Option ℚ := none
  relay_rtt_mean : Option ℚ := none
  hole_punch_time_s : Option ℚ := none
  reconnect_mean_ms : Option ℚ := none
  reconnect_max_ms : Option ℚ := none
  duration_s : Option ℚ := none
  total_disconnected_s : Option ℚ := none
  deriving DecidableEq

/-- `analyze_file` after the loader: classify events and build the metrics
dict.  Raw indexing `p["rtt_ms"]` (lines 39-41) and `r["reconnect_time_ms"]`
(line 76) raise `KeyError` when the field is missing; every other field is
read with `.get`. -/
def analyze_events (filepath : String) (lines : List (Option Event)) :
    Except PyErr FileResult :=
  let events := lines.filterMap id
  let pings := eventsOfKind events "ping"
  let path_changes := eventsOfKind events "path_change"
  let hole_punches := eventsOfKind events "hole_punch"
  let disconnects := eventsOfKind events "disconnected"
  let reconnects := eventsOfKind events "reconnected"
  let summaries := eventsOfKind events "summary"
  let direct_pings := pings.filter (fun p => p.via == some "DIRECT")
  let relay_pings := pings.filter (fun p => p.via == some "RELAY")
  match pluck "rtt_ms" Event.rtt_ms direct_pings with
  | .error e => .error e
  | .ok direct_rtts =>
    match pluck "rtt_ms" Event.rtt_ms relay_pings with
    | .error e => .error e
    | .ok relay_rtts =>
      match pluck "rtt_ms" Event.rtt_ms pings with
      | .error e => .error e
      | .ok all_rtts =>
        match
          (if reconnects.isEmpty then .ok none
           else
             match pluck "reconnect_time_ms" Event.reconnect_time_ms
                 reconnects with
             | .error e => .error e
             | .ok ts => .ok (some ts) : Except PyErr (Option (List ℚ))) with
        | .error e => .error e
        | .ok recon_times =>
          .ok
            { file := baseName filepath
              total_pings := pings.length
              direct_pings := direct_pings.length
              relay_pings := relay_pings.length
              direct_pct :=
                if pings.isEmpty then 0
                else (direct_pings.length : ℚ) / (pings.length : ℚ) * 100
              path_changes := path_changes.length
              hole_punches := hole_punches.length
              disconnections := disconnects.length
              reconnections := reconnects.length
              rtt_mean := if all_rtts.isEmpty then none else some (mean all_rtts)
              rtt_median := if all_rtts.isEmpty then none else some (median all_rtts)
              rtt_p95 := if all_rtts.isEmpty then none else some (p95 all_rtts)
              rtt_min := if all_rtts.isEmpty then none else some (listMin all_rtts)
              rtt_max := if all_rtts.isEmpty then none else some (listMax all_rtts)
              direct_rtt_mean :=
                if direct_rtts.isEmpty then none else some (mean direct_rtts)
              direct_rtt_p95 :=
                if direct_rtts.isEmpty then none else some (p95 direct_rtts)
              relay_rtt_mean :=
                if relay_rtts.isEmpty then none else some (mean relay_rtts)
              hole_punch_time_s :=
                match hole_punches with
                | [] => none
                | h :: _ => some (h.time_to_direct_s.getD 0)
              reconnect_mean_ms := recon_times.map (fun ts => mean ts)
              reconnect_max_ms := recon_times.map (fun ts => listMax ts)
              duration_s := (pings.getLast?).map (fun p => p.elapsed_s.getD 0)
              total_disconnected_s :=
                (summaries.getLast?).map (fun s => s.total_disconnected_s.getD 0) }

/-- `analyze_file`: open the file (raising `FileNotFoundError` for a missing
path) and build the metrics dict. -/
def analyze_file (fs : FS) (filepath : String) : Except PyErr FileResult :=
  match fs filepath with
  | none => .error (.notFound filepath)
  | some lines => analyze_events filepath lines

/-- One data-bearing line printed by `print_single` (headers and blank lines
are presentation only). -/
inductive RLine where
  | duration (dur : ℚ)
  | totalPings (n : Nat)
  | direct (n : Nat) (pct : ℚ)
  | relay (n : Nat)
  | rttAll (m md p mn mx : ℚ)
  | rttDirect (m p : ℚ)
  | rttRelay (m : ℚ)
  | holePunch (t : ℚ)
  | pathChanges (n : Nat)
  | disconnections (n : Nat)
  | reconnections (n : Nat)
  | reconnectTime (m mx : ℚ)
  | downtime (t : ℚ)
  deriving DecidableEq

/-- `print_single`: the guarded lines are emitted only when their key is in
the dict.  The source guards each optional line on one key (`rtt_mean`,
`direct_rtt_mean`, `reconnect_mean_ms`) and then indexes the companion keys
raw; `analyze_file` always sets those companions together with the guard key,
so the `getD 0` defaults here are never the rendered value when the guard
passes. -/
def print_single (r : FileResult) : List RLine :=
  [RLine.duration (r.duration_s.getD 0), RLine.totalPings r.total_pings,
    RLine.direct r.direct_pings r.direct_pct, RLine.relay r.relay_pings]
  ++ (match r.rtt_mean with
      | some m => [RLine.rttAll m (r.rtt_median.getD 0) (r.rtt_p95.getD 0)
          (r.rtt_min.getD 0) (r.rtt_max.getD 0)]
      | none => [])
  ++ (match r.direct_rtt_mean with
      | some m => [RLine.rttDirect m (r.direct_rtt_p95.getD 0)]
      | none => [])
  ++ (match r.relay_rtt_mean with
      | some m => [RLine.rttRelay m]
      | none => [])
  ++ (match r.hole_punch_time_s with
      | some t => [RLine.holePunch t]
      | none => [])
  ++ [RLine.pathChanges r.path_changes, RLine.disconnections r.disconnections,
      RLine.reconnections r.reconnections]
  ++ (match r.reconnect_mean_ms with
      | some m => [RLine.reconnectTime m (r.reconnect_max_ms.getD 0)]
      | none => [])
  ++ (match r.total_disconnected_s with
      | some t => [RLine.downtime t]
      | none => [])

/-- One row of the comparison table.  `punch` and `down` are rendered as a
dash when `none`.  The source also strips a `.jsonl` suffix and truncates the
name to 29 characters for display; the name content is kept as is here. -/
structure CompRow where
  name : String
  pings : Nat
  direct_pct : ℚ
  rtt : ℚ
  punch : Option ℚ
  discon : Nat
  recon : Nat
  down : Option ℚ
  deriving DecidableEq

/-- One row of `print_comparison`: the RTT column is
`r.get('direct_rtt_mean', r.get('rtt_mean', 0))`. -/
def comp_row (r : FileResult) : CompRow :=
  { name := r.file
    pings := r.total_pings
    direct_pct := r.direct_pct
    rtt := r.direct_rtt_mean.getD (r.rtt_mean.getD 0)
    punch := r.hole_punch_time_s
    discon := r.disconnections
    recon := r.reconnections
    down := r.total_disconnected_s }

/-- The aggregate line under the comparison table. -/
structure CompAggregate where
  avg_direct : ℚ
  min_direct : ℚ
  max_direct : ℚ
  total_discon : Nat
  total_recon : Nat
  deriving DecidableEq

/-- `print_comparison`: one row per result plus the aggregate line. -/
def print_comparison (results : List FileResult) : List CompRow × CompAggregate :=
  (results.map comp_row,
    { avg_direct := mean (results.map (fun r => r.direct_pct))
      min_direct := listMin (results.map (fun r => r.direct_pct))
      max_direct := listMax (results.map (fun r => r.direct_pct))
      total_discon := (results.map (fun r => r.disconnections)).sum
      total_recon := (results.map (fun r => r.reconnections)).sum })

/-- The diagnostic or result the batch loop of `main` records for one path:
`FileNotFoundError` prints a `[SKIP]` line, any other exception prints an
`[ERROR]` line, success appends the result. -/
inductive BatchEntry where
  | skip (path : String)
  | failed (path : String) (e : PyErr)
  | ok (path : String) (r : FileResult)
  deriving DecidableEq

/-- The path a batch entry was produced for. -/
def BatchEntry.path : BatchEntry → String
  | .skip p => p
  | .failed p _ => p
  | .ok p _ => p

/-- The `for f in files` loop of analyze-results.py's `main`: per-file
exceptions are caught and converted to diagnostics; processing continues with
the next file.  Files are visited in the order given, not sorted. -/
def batch (fs : FS) (files : List String) : List BatchEntry :=
  files.map (fun f =>
    match analyze_file fs f with
    | .error (.notFound _) => .skip f
    | .error e => .failed f e
    | .ok r => .ok f r)

/-- The `results` list accumulated by `main` (successful analyses only). -/
def results_of (fs : FS) (files : List String) : List FileResult :=
  (batch fs files).filterMap (fun entry =>
    match entry with
    | .ok _ r => some r
    | _ => none)

/-- Exit code of analyze-results.py: 1 for the usage message when no paths are
given, 1 when `results` is empty (`"No valid results to analyze."`), else 0. -/
def exitCode (fs : FS) (files : List String) : Nat :=
  if files.isEmpty then 1
  else if (results_of fs files).isEmpty then 1 else 0

/-- The per-file detail sections printed by `main`, in `results` order. -/
def report (fs : FS) (files : List String) : List (List RLine) :=
  (results_of fs files).map print_single

end Results

/-! ### Concrete fixtures used by witnesses and counterexamples -/

/-- A well-formed ping record with the given RTT. -/
def pingEvt (q : ℚ) : Event := { event := some "ping", rtt_ms := some q }

/-- A ping record that is missing its required `rtt_ms` field. -/
def badPing : Event := { event := some "ping" }

/-- A ping over the direct path. -/
def directPing (q : ℚ) : Event :=
  { event := some "ping", rtt_ms := some q, via := some "DIRECT" }

/-- A ping over the relay path. -/
def relayPing (q : ℚ) : Event :=
  { event := some "ping", rtt_ms := some q, via := some "RELAY" }

/-- A producer summary with `total_pings=100, successful=97`. -/
def summary97 : Event :=
  { event := some "summary", total_pings := some 100, successful := some 97 }

/-- A ladder-result record carrying none of its optional RTT fields. -/
def bareLadder : Event := { event := some "ladder_result" }

/-- A burst-result record carrying none of its RTT fields. -/
def bareBurst : Event := { event := some "burst_result" }

/-- File "a" holds a ping without `rtt_ms`; file "b" is healthy. -/
def fsC1 : FS := fsOf [("a", [some badPing]), ("b", [some (pingEvt 10)])]

/-- File "a" does not exist; file "b" is healthy. -/
def fsMissing : FS := fsOf [("b", [some (pingEvt 10)])]

/-- File "a" exists but holds zero events. -/
def fsEmptyFile : FS := fsOf [("a", [])]

/-- File "a" loads with zero events, file "b" holds one ping. -/
def fsBA : FS := fsOf [("a", []), ("b", [some (pingEvt 10)])]

/-- The five-ping file of the spec's percentile example. -/
def lines5 : List (Option Event) :=
  [some (pingEvt 10), some (pingEvt 20), some (pingEvt 30), some (pingEvt 40),
    some (pingEvt 50)]

/-- The metrics dict `analyze_file` builds for a file with zero events. -/
def emptyRes : Results.FileResult :=
  { file := "a", total_pings := 0, direct_pings := 0, relay_pings := 0,
    direct_pct := 0, path_changes := 0, hole_punches := 0, disconnections := 0,
    reconnections := 0 }

/-- The metrics dict for `lines5` (pings 10,20,30,40,50, no `via` fields). -/
def res5 : Results.FileResult :=
  { file := "f", total_pings := 5, direct_pings := 0, relay_pings := 0,
    direct_pct := 0, path_changes := 0, hole_punches := 0, disconnections := 0,
    reconnections := 0, rtt_mean := some 30, rtt_median := some 30,
    rtt_p95 := some 50, rtt_min := some 10, rtt_max := some 50,
    duration_s := some 0 }

/-- The ping report of analyze-stress.py for a single ping of RTT 10. -/
def rep1 : Stress.PingReport :=
  { total := 1, rtt_min := 10, rtt_max := 10, rtt_avg := 10,
    rtt_median := none, rtt_var := none, rtt_p95 := none,
    success_rate := none, reconnections := none, path_changes := none }

/-- Three pings (RTT 1,2,3) followed by the producer summary `summary97`. -/
def events4 : List Event := [pingEvt 1, pingEvt 2, pingEvt 3, summary97]

/-- The ping report for `events4`: the success-rate pair comes from the
summary record, not from the three raw pings. -/
def rep4 : Stress.PingReport :=
  { total := 3, rtt_min := 1, rtt_max := 3, rtt_avg := 2,
    rtt_median := some 2, rtt_var := some 1, rtt_p95 := some 3,
    success_rate := some (97, 100), reconnections := some 0,
    path_changes := none }

/-- A mixed file: one DIRECT ping (10), one RELAY ping (30), one ping with no
`via` field (20). -/
def linesMix : List (Option Event) :=
  [some (directPing 10), some (relayPing 30), some (pingEvt 20)]

/-- The metrics dict for `linesMix`. -/
def resMix : Results.FileResult :=
  { file := "m", total_pings := 3, direct_pings := 1, relay_pings := 1,
    direct_pct := 100 / 3, path_changes := 0, hole_punches := 0,
    disconnections := 0, reconnections := 0, rtt_mean := some 20,
    rtt_median := some 20, rtt_p95 := some 30, rtt_min := some 10,
    rtt_max := some 30, direct_rtt_mean := some 10, direct_rtt_p95 := some 10,
    relay_rtt_mean := some 30, duration_s := some 0 }

/-- RTTs of the decoded ping events of a file, in file order (the value of
`all_rtts` when no `KeyError` is raised). -/
def pingRtts (lines : List (Option Event)) : List ℚ :=
  (eventsOfKind (lines.filterMap id) "ping").filterMap Event.rtt_ms

/-- RTTs of the decoded DIRECT ping events of a file (the value of
`direct_rtts` when no `KeyError` is raised). -/
def directRtts (lines : List (Option Event)) : List ℚ :=
  ((eventsOfKind (lines.filterMap id) "ping").filter
    (fun p => p.via == some "DIRECT")).filterMap Event.rtt_ms

/-- The metrics dict for file "b" of `fsC1` and `fsBA` (one ping of RTT 10). -/
def resB : Results.FileResult :=
  { file := "b", total_pings := 1, direct_pings := 0, relay_pings := 0,
    direct_pct := 0, path_changes := 0, hole_punches := 0, disconnections := 0,
    reconnections := 0, rtt_mean := some 10, rtt_median := some 10,
    rtt_p95 := some 10, rtt_min := some 10, rtt_max := some 10,
    duration_s := some 0 }

/-! ### Helper lemmas -/

theorem pluck_ok {fld : String} {sel : Event → Option ℚ} {l : List Event}
    {out : List ℚ} (h : pluck fld sel l = .ok out) :
    out = l.filterMap sel ∧ out.length = l.length := by
  induction l generalizing out with
  | nil => cases h; simp
  | cons p ps ih =>
    cases hp : sel p with
    | none => simp [pluck, hp] at h
    | some q =>
      simp only [pluck, hp] at h
      cases hps : pluck fld sel ps with
      | error e => simp [hps] at h
      | ok rest =>
        simp only [hps] at h
        cases h
        rcases ih hps with ⟨h1, h2⟩
        exact ⟨by simp [List.filterMap_cons, hp, h1], by simp [h2]⟩

theorem pluck_error_shape {fld : String} {sel : Event → Option ℚ}
    {l : List Event} {e : PyErr}
    (h : pluck fld sel l = .error e) : e = .keyError fld := by
  induction l generalizing e with
  | nil => simp [pluck] at h
  | cons p ps ih =>
    cases hp : sel p with
    | none =>
      simp only [pluck, hp] at h
      cases h
      rfl
    | some q =>
      simp only [pluck, hp] at h
      cases hps : pluck fld sel ps with
      | error e2 =>
        simp only [hps] at h
        cases h
        exact ih hps
      | ok rest => simp [hps] at h

theorem pluck_error_of_none {fld : String} {sel : Event → Option ℚ}
    {l : List Event} (h : ∃ p ∈ l, sel p = none) :
    pluck fld sel l = .error (.keyError fld) := by
  induction l with
  | nil => simp at h
  | cons p ps ih =>
    rcases h with ⟨q, hq, hqnone⟩
    rcases List.mem_cons.mp hq with rfl | hmem
    · simp [pluck, hqnone]
    · cases hp : sel p with
      | none => simp [pluck, hp]
      | some v => simp [pluck, hp, ih ⟨q, hmem, hqnone⟩]

theorem analyze_pings_ok_inv {events : List Event} {rep : Stress.PingReport}
    (h : Stress.analyze_pings events = .ok (some rep)) :
    ∃ rtts, pluck "rtt_ms" Event.rtt_ms (eventsOfKind events "ping") = .ok rtts ∧
      rtts.length = (eventsOfKind events "ping").length ∧
      rep.total = (eventsOfKind events "ping").length ∧
      rep.rtt_median = (if 1 < rtts.length then some (median rtts) else none) ∧
      rep.rtt_var = (if 1 < rtts.length then some (sampleVariance rtts) else none) ∧
      rep.rtt_p95 = (if 1 < rtts.length then some (p95 rtts) else none) ∧
      rep.success_rate = (match (eventsOfKind events "summary").getLast? with
        | none => none
        | some s =>
          if s.total_pings.getD 0 ≠ 0 then
            some (s.successful.getD 0, s.total_pings.getD 0)
          else none) := by
  unfold Stress.analyze_pings at h
  by_cases hp : (eventsOfKind events "ping").isEmpty
  · simp [hp] at h
  · simp only [hp, if_false, Bool.false_eq_true] at h
    cases hm : pluck "rtt_ms" Event.rtt_ms (eventsOfKind events "ping") with
    | error e => rw [hm] at h; simp at h
    | ok rtts =>
      rw [hm] at h
      simp only [Except.ok.injEq, Option.some.injEq] at h
      refine ⟨rtts, rfl, (pluck_ok hm).2, ?_⟩
      rw [← h]
      exact ⟨rfl, rfl, rfl, rfl, rfl⟩

theorem analyze_events_fields {fp : String} {lines : List (Option Event)}
    {r : Results.FileResult} (h : Results.analyze_events fp lines = .ok r) :
    r.total_pings = (eventsOfKind (lines.filterMap id) "ping").length ∧
    r.direct_pings = ((eventsOfKind (lines.filterMap id) "ping").filter
      (fun p => p.via == some "DIRECT")).length ∧
    (pingRtts lines).length = r.total_pings ∧
    (directRtts lines).length = r.direct_pings ∧
    r.rtt_mean = (if (pingRtts lines).isEmpty then none
      else some (mean (pingRtts lines))) ∧
    r.rtt_p95 = (if (pingRtts lines).isEmpty then none
      else some (p95 (pingRtts lines))) ∧
    r.direct_rtt_mean = (if (directRtts lines).isEmpty then none
      else some (mean (directRtts lines))) := by
  simp only [Results.analyze_events] at h
  split at h
  · simp at h
  next direct_rtts hd =>
    split at h
    · simp at h
    next relay_rtts hr =>
      split at h
      · simp at h
      next all_rtts ha =>
        split at h
        · simp at h
        next recon_times hrec =>
          cases h
          rcases pluck_ok hd with ⟨hd1, hd2⟩
          rcases pluck_ok ha with ⟨ha1, ha2⟩
          rw [show pingRtts lines =
              (eventsOfKind (lines.filterMap id) "ping").filterMap Event.rtt_ms from rfl,
            show directRtts lines =
              ((eventsOfKind (lines.filterMap id) "ping").filter
                (fun p => p.via == some "DIRECT")).filterMap Event.rtt_ms from rfl,
            ← hd1, ← ha1]
          exact ⟨rfl, rfl, ha2, hd2, rfl, rfl, rfl⟩

theorem analyze_one_path {fs : FS} {p : String} {out : Stress.FileSection}
    (h : Stress.analyze_one fs p = .ok out) : out.path = p := by
  unfold Stress.analyze_one at h
  split at h
  · simp at h
  · split at h
    · cases h; rfl
    · split at h
      · simp at h
      next ping hp =>
        cases h
        rfl

theorem mapE_analyze_one_paths {fs : FS} {l : List String}
    {out : List Stress.FileSection}
    (h : mapE (Stress.analyze_one fs) l = .ok out) :
    out.map Stress.FileSection.path = l := by
  induction l generalizing out with
  | nil => cases h; rfl
  | cons x xs ih =>
    simp only [mapE] at h
    cases hx : Stress.analyze_one fs x with
    | error e =>
      simp only [hx] at h
      exact Except.noConfusion h
    | ok y =>
      simp only [hx] at h
      cases hxs : mapE (Stress.analyze_one fs) xs with
      | error e =>
        simp only [hxs] at h
        exact Except.noConfusion h
      | ok ys =>
        simp only [hxs] at h
        cases h
        simp [analyze_one_path hx, ih hxs]

/-! ### Claims -/

/-- C1 counterexample: file "a" of `fsC1` holds a single ping event without
`rtt_ms`.  Running analyze-stress.py on it does not treat the record as
absent; the `KeyError` escapes `analyze_pings`, aborting the whole
invocation (file "b" is never reached). -/
theorem c1_counterexample :
    Stress.main fsC1 ["a", "b"] = .error (.keyError "rtt_ms") := by
  with_unfolding_all rfl

/-- C1 (amended): a ping record missing the required `rtt_ms` field raises
`KeyError` instead of being excluded from the aggregate.  In
analyze-stress.py the exception is uncaught; in analyze-results.py the batch
loop catches it, records an `[ERROR]` diagnostic for the file, and still
processes the remaining files. -/
theorem c1_keyerror_behaviour :
    (∀ events : List Event,
      (∃ p ∈ eventsOfKind events "ping", p.rtt_ms = none) →
      Stress.analyze_pings events = .error (.keyError "rtt_ms")) ∧
    (∀ (fs : FS) (f : String) (rest : List String) (fld : String),
      Results.analyze_file fs f = .error (.keyError fld) →
      Results.batch fs (f :: rest) =
        .failed f (.keyError fld) :: Results.batch fs rest) := by
  constructor
  · rintro events ⟨p, hp, hnone⟩
    have hne : (eventsOfKind events "ping").isEmpty = false :=
      List.isEmpty_eq_false.mpr (List.ne_nil_of_mem hp)
    simp only [Stress.analyze_pings, hne, Bool.false_eq_true, if_false]
    rw [pluck_error_of_none ⟨p, hp, hnone⟩]
  · intro fs f rest fld h
    simp only [Results.batch, List.map_cons, h]

/-- C1 witness: on `fsC1` the bad file "a" raises `KeyError("rtt_ms")` and
analyze-results.py converts it to a per-file diagnostic while the rest of the
batch is still processed. -/
theorem c1_witness :
    Results.analyze_file fsC1 "a" = .error (.keyError "rtt_ms") ∧
    Results.batch fsC1 ["a", "b"] =
      .failed "a" (.keyError "rtt_ms") :: Results.batch fsC1 ["b"] := by
  have h : Results.analyze_file fsC1 "a" = .error (.keyError "rtt_ms") := by
    with_unfolding_all rfl
  exact ⟨h, c1_keyerror_behaviour.2 fsC1 "a" ["b"] "rtt_ms" h⟩

/-- C2 counterexample: a `ladder_result` (resp. `burst_result`) record with
all optional RTT fields missing is still rendered as a table row (resp.
round block) whose RTT columns are the substituted value 0 — the line is not
omitted. -/
theorem c2_counterexample :
    Stress.analyze_ladder [bareLadder] =
      some [{ size_str := "0B", ok := 0, fail := 0, rmin := 0, ravg := 0,
              rmax := 0 }] ∧
    Stress.analyze_burst [bareBurst] =
      some [{ round := none, sent := 0, acked := 0, lost := 0, size := 0,
              mps := 0, bps := 0, elapsed := 0, rtt_min := 0, rtt_avg := 0,
              rtt_max := 0 }] :=
  ⟨by with_unfolding_all rfl, by with_unfolding_all rfl⟩

/-- C2 (amended): the omission rule holds for the ping aggregator's stddev
(fewer than 2 samples) and for `print_single`'s optional RTT and reconnect
lines, but the ladder and burst renderers substitute 0 for missing RTT
fields instead of omitting the line. -/
theorem c2_unavailable_omitted :
    (∀ (events : List Event) (rep : Stress.PingReport),
      Stress.analyze_pings events = .ok (some rep) → rep.total < 2 →
      rep.rtt_var = none) ∧
    (∀ (r : Results.FileResult) (a b : ℚ), r.direct_rtt_mean = none →
      Results.RLine.rttDirect a b ∉ Results.print_single r) ∧
    (∀ (r : Results.FileResult) (a b : ℚ), r.reconnect_mean_ms = none →
      Results.RLine.reconnectTime a b ∉ Results.print_single r) := by
  refine ⟨?_, ?_, ?_⟩
  · intro events rep h hlt
    rcases analyze_pings_ok_inv h with ⟨rtts, _, hlen, htot, _, hvar, _, _⟩
    rw [hvar, if_neg (by omega)]
  · intro r a b hnone
    cases hm : r.rtt_mean <;> cases hr : r.relay_rtt_mean <;>
      cases hh : r.hole_punch_time_s <;> cases hrc : r.reconnect_mean_ms <;>
      cases ht : r.total_disconnected_s <;>
      simp [Results.print_single, hnone, hm, hr, hh, hrc, ht]
  · intro r a b hnone
    cases hm : r.rtt_mean <;> cases hd : r.direct_rtt_mean <;>
      cases hr : r.relay_rtt_mean <;> cases hh : r.hole_punch_time_s <;>
      cases ht : r.total_disconnected_s <;>
      simp [Results.print_single, hnone, hm, hd, hr, hh, ht]

/-- C2 witness: the single-sample report omits its stddev field, and a dict
without the optional direct-RTT / reconnect keys gets no such lines. -/
theorem c2_witness :
    rep1.rtt_var = none ∧
    Results.RLine.rttDirect 0 0 ∉ Results.print_single emptyRes ∧
    Results.RLine.reconnectTime 0 0 ∉ Results.print_single emptyRes :=
  ⟨c2_unavailable_omitted.1 [pingEvt 10] rep1 (by with_unfolding_all rfl)
      (by decide),
    c2_unavailable_omitted.2.1 emptyRes 0 0 rfl,
    c2_unavailable_omitted.2.2 emptyRes 0 0 rfl⟩

/-- C3: the reported p95 is the element at index `⌊n * 0.95⌋` of the sorted
RTT list (nearest-rank, no interpolation): the index is always in bounds and
selects exactly the reported value; for RTTs 10,20,30,40,50 the report says
p95 = 50. -/
theorem c3_p95_nearest_rank :
    (∀ (lines : List (Option Event)) (name : String) (r : Results.FileResult),
      Results.analyze_events name lines = .ok r → 0 < r.total_pings →
      (r.total_pings * 95) / 100 < (pySorted (pingRtts lines)).length ∧
      (pySorted (pingRtts lines)).get? ((r.total_pings * 95) / 100) =
        r.rtt_p95) ∧
    Results.analyze_events "f" lines5 = .ok res5 ∧ res5.rtt_p95 = some 50 := by
  refine ⟨?_, by with_unfolding_all rfl, rfl⟩
  intro lines name r h hpos
  rcases analyze_events_fields h with ⟨htot, _, hlen, _, _, hp95, _⟩
  have hsort : (pySorted (pingRtts lines)).length = (pingRtts lines).length :=
    (List.perm_insertionSort _ _).length_eq
  have hne : (pingRtts lines).isEmpty = false :=
    List.isEmpty_eq_false.mpr (by
      intro hnil
      rw [hnil] at hlen
      simp at hlen
      omega)
  have hidx : (r.total_pings * 95) / 100 < (pySorted (pingRtts lines)).length := by
    rw [hsort, hlen]
    exact Nat.div_lt_of_lt_mul (by omega)
  refine ⟨hidx, ?_⟩
  rw [hp95, if_neg (by simp [hne]), List.get?_eq_get hidx]
  have : p95 (pingRtts lines) =
      (pySorted (pingRtts lines)).getD ((r.total_pings * 95) / 100) 0 := by
    rw [p95, hlen]
  rw [this, List.getD_eq_get _ _ hidx]

/-- C4: when at least one summary record is present (and its `total_pings` is
truthy so the line is rendered), the success-rate line of `analyze_pings` is
the `successful`/`total_pings` pair of the *last* summary record, whatever
the raw ping events say. -/
theorem c4_summary_wins :
    ∀ (events : List Event) (rep : Stress.PingReport) (s : Event),
      Stress.analyze_pings events = .ok (some rep) →
      (eventsOfKind events "summary").getLast? = some s →
      s.total_pings.getD 0 ≠ 0 →
      rep.success_rate = some (s.successful.getD 0, s.total_pings.getD 0) := by
  intro events rep s h hlast htot
  rcases analyze_pings_ok_inv h with ⟨rtts, _, _, _, _, _, _, hsucc⟩
  rw [hsucc, hlast]
  simp [htot]

/-- C4 witness: `events4` holds three raw pings but its summary says
`total_pings=100, successful=97`; the reported success pair is (97, 100). -/
theorem c4_witness : rep4.success_rate = some (97, 100) :=
  c4_summary_wins events4 rep4 summary97 (by with_unfolding_all rfl)
    (by with_unfolding_all rfl) (of_decide_eq_true (by with_unfolding_all rfl))

/-- C5 counterexample: with file "a" missing, analyze-stress.py aborts the
whole invocation with the uncaught `FileNotFoundError`; file "b" is never
processed, so the missing file is not a per-file diagnostic there. -/
theorem c5_counterexample :
    Stress.main fsMissing ["a", "b"] = .error (.notFound "a") := by
  with_unfolding_all rfl

/-- C5 (amended): in analyze-results.py a missing file becomes a per-file
`[SKIP]` diagnostic and the remaining files are still fully processed; in
analyze-stress.py the `FileNotFoundError` is uncaught and aborts the batch. -/
theorem c5_not_found_isolated :
    ∀ (fs : FS) (f : String) (rest : List String), fs f = none →
      Results.batch fs (f :: rest) = .skip f :: Results.batch fs rest := by
  intro fs f rest hf
  simp only [Results.batch, List.map_cons]
  congr 1
  simp [Results.analyze_file, hf]

/-- C5 witness: on `fsMissing` the missing "a" is skipped and "b" still
processed by analyze-results.py. -/
theorem c5_witness :
    Results.batch fsMissing ["a", "b"] =
      .skip "a" :: Results.batch fsMissing ["b"] :=
  c5_not_found_isolated fsMissing "a" ["b"] (by with_unfolding_all rfl)

theorem results_of_eq_nil_iff {fs : FS} {files : List String} :
    Results.results_of fs files = [] ↔
      ∀ f ∈ files, ∃ e, Results.analyze_file fs f = .error e := by
  unfold Results.results_of Results.batch
  rw [List.filterMap_map, List.filterMap_eq_nil_iff]
  constructor
  · intro H f hf
    have hor := H f hf
    revert hor
    cases he : Results.analyze_file fs f with
    | error e => intro _; exact ⟨e, rfl⟩
    | ok r =>
      intro hcontra
      simp [Function.comp, he] at hcontra
  · intro H f hf
    rcases H f hf with ⟨e, he⟩
    cases e <;> simp [Function.comp, he]

/-- C6 counterexample: file "a" of `fsEmptyFile` loads but yields zero
events.  The claim demands exit code 1 ("every input file failed to load or
yielded zero events"), but analyze-results.py still appends a result dict
for the file and exits 0. -/
theorem c6_counterexample :
    Results.analyze_file fsEmptyFile "a" = .ok emptyRes ∧
    Results.exitCode fsEmptyFile ["a"] = 0 :=
  ⟨by with_unfolding_all rfl, by with_unfolding_all rfl⟩

/-- C6 (amended): analyze-results.py exits 1 exactly when no paths are given
or every file raises during loading/analysis; a file that loads with zero
events still yields a result (exit 0).  analyze-stress.py prints the
`(empty)` note for a zero-event file and exits 0 when every given file loads
and analyzes cleanly. -/
theorem c6_exit_semantics :
    (∀ (fs : FS) (files : List String),
      Results.exitCode fs files = 1 ↔
        (files = [] ∨ ∀ f ∈ files, ∃ e, Results.analyze_file fs f = .error e)) ∧
    (∀ (fs : FS) (path : String), fs path = some [] →
      Stress.analyze_one fs path = .ok (.empty path) ∧
      Stress.exitCode fs [path] = 0) := by
  constructor
  · intro fs files
    unfold Results.exitCode
    by_cases hf : files = []
    · subst hf
      simp
    · have hne : files.isEmpty = false := List.isEmpty_eq_false.mpr hf
      rw [hne]
      simp only [Bool.false_eq_true, if_false]
      by_cases hr : Results.results_of fs files = []
      · rw [if_pos (List.isEmpty_iff.mpr hr)]
        simp only [true_iff]
        exact Or.inr (results_of_eq_nil_iff.mp hr)
      · rw [if_neg (by simpa [List.isEmpty_iff] using hr)]
        simp only [Nat.zero_ne_one, false_iff]
        rintro (rfl | H)
        · exact hf rfl
        · exact hr (results_of_eq_nil_iff.mpr H)
  · intro fs path hp
    have h1 : Stress.analyze_one fs path = .ok (.empty path) := by
      simp [Stress.analyze_one, load_events, hp]
    refine ⟨h1, ?_⟩
    simp [Stress.exitCode, Stress.main, pySortedStr, insertSorted, mapE, h1]

/-- C6 witness: a present-but-empty file gets the empty note and exit 0 from
analyze-stress.py; the exit-1 criterion applied to `fsMissing` with its only
file missing yields exit code 1. -/
theorem c6_witness :
    (Stress.analyze_one fsEmptyFile "a" = .ok (.empty "a") ∧
      Stress.exitCode fsEmptyFile ["a"] = 0) ∧
    Results.exitCode fsMissing ["a"] = 1 := by
  refine ⟨c6_exit_semantics.2 fsEmptyFile "a" (by with_unfolding_all rfl), ?_⟩
  refine (c6_exit_semantics.1 fsMissing ["a"]).mpr (Or.inr ?_)
  intro f hf
  rw [List.mem_singleton.mp hf]
  exact ⟨.notFound "a", by with_unfolding_all rfl⟩

/-- C7 counterexample: for a group with exactly one ping (RTT 10) the report
has no median and no p95 line — the `len(rtts) > 1` guard suppresses them
together with stddev, contradicting "min, mean, median and p95 are still
reported when exactly one sample exists". -/
theorem c7_counterexample :
    Stress.analyze_pings [pingEvt 10] = .ok (some rep1) ∧
    rep1.rtt_median = none ∧ rep1.rtt_p95 = none :=
  ⟨by with_unfolding_all rfl, rfl, rfl⟩

/-- C7 (amended): min, max and mean are always part of a non-empty ping
report, but the single `len(rtts) > 1` guard omits median, stddev and p95
together whenever fewer than two samples exist. -/
theorem c7_single_sample_guard :
    ∀ (events : List Event) (rep : Stress.PingReport),
      Stress.analyze_pings events = .ok (some rep) →
      ((rep.rtt_median.isSome ↔ 1 < rep.total) ∧
       (rep.rtt_var.isSome ↔ 1 < rep.total) ∧
       (rep.rtt_p95.isSome ↔ 1 < rep.total)) := by
  intro events rep h
  rcases analyze_pings_ok_inv h with ⟨rtts, _, hlen, htot, hmed, hvar, hp95, _⟩
  rw [hmed, hvar, hp95, htot, ← hlen]
  by_cases h1 : 1 < rtts.length <;> simp [h1]

/-- C7 witness: the guard instantiated at the single-sample report. -/
theorem c7_witness :
    (rep1.rtt_median.isSome ↔ 1 < rep1.total) ∧
    (rep1.rtt_var.isSome ↔ 1 < rep1.total) ∧
    (rep1.rtt_p95.isSome ↔ 1 < rep1.total) :=
  c7_single_sample_guard [pingEvt 10] rep1 (by with_unfolding_all rfl)

/-- C8 counterexample: for a file with zero ping events analyze-results.py's
`print_single` still prints the zero-filled count line `Total pings: 0` —
the ping section is not omitted entirely there. -/
theorem c8_counterexample :
    Results.analyze_file fsEmptyFile "a" = .ok emptyRes ∧
    Results.RLine.totalPings 0 ∈ Results.print_single emptyRes :=
  ⟨by with_unfolding_all rfl, of_decide_eq_true (by with_unfolding_all rfl)⟩

/-- C8 (amended): analyze-stress.py's `analyze_pings` emits nothing at all
for zero pings, but analyze-results.py's `print_single` still prints the
zero-valued count lines (while omitting every RTT statistic line). -/
theorem c8_zero_ping_sections :
    (∀ events : List Event, (eventsOfKind events "ping").isEmpty →
      Stress.analyze_pings events = .ok none) ∧
    (∀ (lines : List (Option Event)) (name : String) (r : Results.FileResult),
      Results.analyze_events name lines = .ok r → r.total_pings = 0 →
      Results.RLine.totalPings 0 ∈ Results.print_single r ∧
      ∀ a b c d e : ℚ, Results.RLine.rttAll a b c d e ∉
        Results.print_single r) := by
  constructor
  · intro events h
    simp [Stress.analyze_pings, h]
  · intro lines name r h h0
    rcases analyze_events_fields h with ⟨htot, _, hlen, _, hmean, _, _⟩
    have hmean' : r.rtt_mean = none := by
      rw [hmean, if_pos (by rw [List.isEmpty_iff_length_eq_zero]; omega)]
    constructor
    · rw [← h0]
      simp [Results.print_single]
    · intro a b c d e
      cases hd : r.direct_rtt_mean <;> cases hr : r.relay_rtt_mean <;>
        cases hh : r.hole_punch_time_s <;> cases hrc : r.reconnect_mean_ms <;>
        cases ht : r.total_disconnected_s <;>
        simp [Results.print_single, hmean', hd, hr, hh, hrc, ht]

/-- C8 witness: the empty-file dict gets the `Total pings: 0` line and no
all-RTT line. -/
theorem c8_witness :
    Results.RLine.totalPings 0 ∈ Results.print_single emptyRes ∧
    Results.RLine.rttAll 0 0 0 0 0 ∉ Results.print_single emptyRes := by
  have h := c8_zero_ping_sections.2 [] "a" emptyRes (by with_unfolding_all rfl) rfl
  exact ⟨h.1, h.2 0 0 0 0 0⟩

/-- C9 counterexample: invoked as `analyze-results.py b a`, the per-file
sections come out in the order given ("b" then "a"), not in sorted-path
order ("a" then "b"). -/
theorem c9_counterexample :
    (Results.results_of fsBA ["b", "a"]).map Results.FileResult.file =
      ["b", "a"] ∧
    pySortedStr ["b", "a"] = ["a", "b"] ∧
    (["b", "a"] : List String) ≠ ["a", "b"] :=
  ⟨by with_unfolding_all rfl, by with_unfolding_all rfl,
    of_decide_eq_true (by with_unfolding_all rfl)⟩

/-- C9 (amended): analyze-stress.py processes files in sorted-path order;
analyze-results.py processes files and emits their sections in the order the
paths were given on the command line. -/
theorem c9_processing_order :
    (∀ (fs : FS) (files : List String) (out : List Stress.FileSection),
      Stress.main fs files = .ok out →
      out.map Stress.FileSection.path = pySortedStr files) ∧
    (∀ (fs : FS) (files : List String),
      (Results.batch fs files).map Results.BatchEntry.path = files) := by
  constructor
  · intro fs files out h
    exact mapE_analyze_one_paths h
  · intro fs files
    induction files with
    | nil => rfl
    | cons f rest ih =>
      simp only [Results.batch, List.map_cons] at ih ⊢
      refine congrArg₂ List.cons ?_ ih
      cases he : Results.analyze_file fs f with
      | error e => cases e <;> simp [he, Results.BatchEntry.path]
      | ok r => simp [he, Results.BatchEntry.path]

/-- C9 witness: analyze-stress.py on `fsBA` given the paths as "b","a" emits
the sections for "a" (empty note) and then "b" — sorted order. -/
theorem c9_witness :
    [Stress.FileSection.empty "a",
      Stress.FileSection.report "b" (some rep1) none none none].map
        Stress.FileSection.path = pySortedStr ["b", "a"] :=
  c9_processing_order.1 fsBA ["b", "a"] _ (by with_unfolding_all rfl)

/-- C10: the comparison table's RTT column per row is the direct-path mean
when the file has direct pings, else the all-ping mean when it has any
pings, else 0. -/
theorem c10_rtt_column :
    ∀ (lines : List (Option Event)) (name : String) (r : Results.FileResult),
      Results.analyze_events name lines = .ok r →
      ((0 < r.direct_pings →
        (Results.comp_row r).rtt = mean (directRtts lines)) ∧
       (r.direct_pings = 0 → 0 < r.total_pings →
        (Results.comp_row r).rtt = mean (pingRtts lines)) ∧
       (r.total_pings = 0 → (Results.comp_row r).rtt = 0)) := by
  intro lines name r h
  rcases analyze_events_fields h with ⟨htot, hdir, hlen, hdlen, hmean, _, hdmean⟩
  have hrtt : (Results.comp_row r).rtt =
      r.direct_rtt_mean.getD (r.rtt_mean.getD 0) := rfl
  have hle : ((eventsOfKind (lines.filterMap id) "ping").filter
      (fun p => p.via == some "DIRECT")).length ≤
      (eventsOfKind (lines.filterMap id) "ping").length :=
    List.length_filter_le _ _
  refine ⟨?_, ?_, ?_⟩
  · intro hpos
    rw [hrtt, hdmean,
      if_neg (by rw [List.isEmpty_iff_length_eq_zero]; omega)]
    rfl
  · intro h0 hpos
    rw [hrtt, hdmean,
      if_pos (by rw [List.isEmpty_iff_length_eq_zero]; omega), hmean,
      if_neg (by rw [List.isEmpty_iff_length_eq_zero]; omega)]
    rfl
  · intro h0
    have hd0 : r.direct_pings = 0 := by omega
    rw [hrtt, hdmean,
      if_pos (by rw [List.isEmpty_iff_length_eq_zero]; omega), hmean,
      if_pos (by rw [List.isEmpty_iff_length_eq_zero]; omega)]
    rfl

/-- C10 witness: on the mixed file the row RTT is the direct-only mean. -/
theorem c10_witness :
    (Results.comp_row resMix).rtt = mean (directRtts linesMix) :=
  (c10_rtt_column linesMix "m" resMix (by with_unfolding_all rfl)).1 (by decide)

/-- C3 witness: the nearest-rank property instantiated at the spec's
five-ping example file. -/
theorem c3_witness :
    (res5.total_pings * 95) / 100 < (pySorted (pingRtts lines5)).length ∧
    (pySorted (pingRtts lines5)).get? ((res5.total_pings * 95) / 100) =
      res5.rtt_p95 :=
  c3_p95_nearest_rank.1 lines5 "f" res5 (by with_unfolding_all rfl) (by decide)
